import Mathlib

/-!
Verification of the Archon document-ingestion pipeline against its
natural-language specification.

The Python sources are shallowly embedded: pure fragments become Lean
functions, stateful fragments become explicit state passing, fallible
calls become `Except`/`Option` values, and the behaviour of external
services (blob store, database, LLM backends) is supplied as explicit
parameters.  Floating-point values (temperatures, bounding-box
coordinates, embedding components) never influence the control flow of
any verified property and are abstracted to integers where a carrier is
needed.
-/

namespace Archon

/-! ## PDF type detection (`src/python/src/server/utils/document_processing.py`) -/

/-- Python `str.strip()` whitespace characters (the ASCII ones). -/
def isPySpace (c : Char) : Bool :=
  c = ' ' ∨ c = '\t' ∨ c = '\n' ∨ c = '\r' ∨ c = '\x0b' ∨ c = '\x0c'

/-- Python `str.strip()`: drop whitespace from both ends. -/
def pyStrip (s : List Char) : List Char :=
  ((s.dropWhile isPySpace).reverse.dropWhile isPySpace).reverse

/-- One page of an opened PDF, as seen by `detect_pdf_type`:
`page.get_text()` and `len(page.get_images())`. -/
structure PdfPage where
  text : List Char
  imageCount : Nat

/-- `len(page.get_text().strip())` summed by the classifier. -/
def pageChars (p : PdfPage) : Nat := (pyStrip p.text).length

/-- `detect_pdf_type` from `document_processing.py`.  The input is the
result of `fitz.open`: `none` models a parse failure (the `except`
branch), `some pages` a successfully opened document. -/
def detect_pdf_type (pdf : Option (List PdfPage)) : String :=
  match pdf with
  | none => "unknown"
  | some pages =>
    if pages.length = 0 then "unknown"
    else
      let sample_pages := min 3 pages.length
      let sampled := pages.take sample_pages
      let total_text_chars := (sampled.map pageChars).sum
      let total_image_count := (sampled.map PdfPage.imageCount).sum
      if total_text_chars > 8000 then "text_based"
      else if total_text_chars > 3000 then
        if total_image_count > sample_pages * 2 then "mixed" else "text_based"
      else if total_text_chars > 500 then
        if total_image_count > sample_pages then "mixed" else "text_based"
      else if total_image_count > 0 then "scanned"
      else "unknown"

/-- The spec's input classes for the PDF classifier. -/
inductive InputClass where
  | text_pdf
  | mixed
  | scanned
  | unknown
  deriving DecidableEq, Repr

/-- The string the source uses for each spec-level input class
(`text_pdf` is realised as the literal `"text_based"`). -/
def InputClass.toCode : InputClass → String
  | .text_pdf => "text_based"
  | .mixed => "mixed"
  | .scanned => "scanned"
  | .unknown => "unknown"

/-- Modelled from the spec's classification algorithm (§4.2): sample the
first `min(3, n)` pages, sum extractable characters, count embedded
image objects, and apply the thresholds in order. -/
def classifySpec (pdf : Option (List PdfPage)) : InputClass :=
  match pdf with
  | none => .unknown
  | some pages =>
    let sample_pages := min 3 pages.length
    let sampled := pages.take sample_pages
    let chars := (sampled.map pageChars).sum
    let images := (sampled.map PdfPage.imageCount).sum
    if chars > 8000 then .text_pdf
    else if chars > 3000 ∧ images > sample_pages * 2 then .mixed
    else if chars > 3000 then .text_pdf
    else if chars > 500 ∧ images > sample_pages then .mixed
    else if chars > 500 then .text_pdf
    else if images > 0 then .scanned
    else .unknown

/-! ## Region image extraction (`src/services/mineru-mlx/app.py`, `process_pdf`) -/

/-- One layout detection as consumed by the region-extraction loop:
`det.get('category_id', -1)` and `det.get('bbox', [])`.  Bounding-box
coordinates only matter to the crop (abstracted); the loop itself checks
only `len(bbox)`. -/
structure LayoutDet where
  category_id : Int
  bbox : List Int

/-- An entry appended to `image_data_list` by the region loop (the
fields the indexing claim is about). -/
structure RegionImage where
  name : String
  page_number : Nat
  image_index : Nat
  deriving DecidableEq

/-- Inner loop of the region extraction: one page's `layout_dets`,
threading the document-wide `region_idx` counter.  `renderOk` models
whether the render/crop of a detection raises (the `except` branch
skips the detection without incrementing the counter). -/
def extractRegionsOnPage (renderOk : Nat → LayoutDet → Bool) (page_idx : Nat) :
    Nat → List LayoutDet → List RegionImage × Nat
  | region_idx, [] => ([], region_idx)
  | region_idx, det :: rest =>
    if det.category_id = 0 ∨ det.category_id = 3 then
      if det.bbox.length ≠ 4 then
        extractRegionsOnPage renderOk page_idx region_idx rest
      else if renderOk page_idx det then
        let tail := extractRegionsOnPage renderOk page_idx (region_idx + 1) rest
        (⟨"page_" ++ toString (page_idx + 1) ++ "_region_" ++ toString region_idx ++ ".png",
          page_idx + 1, region_idx⟩ :: tail.1, tail.2)
      else
        extractRegionsOnPage renderOk page_idx region_idx rest
    else
      extractRegionsOnPage renderOk page_idx region_idx rest

/-- Outer loop over `enumerate(pdf_results)`, with the single
`region_idx = 0` initialisation threaded across pages. -/
def extractRegionsFrom (renderOk : Nat → LayoutDet → Bool) :
    Nat → Nat → List (List LayoutDet) → List RegionImage
  | _, _, [] => []
  | page_idx, region_idx, dets :: rest =>
    let page := extractRegionsOnPage renderOk page_idx region_idx dets
    page.1 ++ extractRegionsFrom renderOk (page_idx + 1) page.2 rest

/-- The region-image part of `process_pdf`: iterate all pages' layout
detections, emitting a `RegionImage` for every image/figure detection
(category 0 or 3) whose bbox is well-formed and whose crop succeeds. -/
def extract_region_images (renderOk : Nat → LayoutDet → Bool)
    (pdf_results : List (List LayoutDet)) : List RegionImage :=
  extractRegionsFrom renderOk 0 0 pdf_results

/-- Image indices of the region images emitted for one page. -/
def perPageIndices (imgs : List RegionImage) (page : Nat) : List Nat :=
  (imgs.filter (fun i => i.page_number == page)).map RegionImage.image_index

/-- The claim's per-page density property: on every page the emitted
indices are `0, 1, 2, …` restarting at 0. -/
def densePerPage (imgs : List RegionImage) : Bool :=
  (imgs.map RegionImage.page_number).all
    (fun p => perPageIndices imgs p == List.range (perPageIndices imgs p).length)

/-! ## Image storage
(`src/python/src/server/services/storage/image_storage_service.py`) -/

/-- The `ext_map` lookup in `_generate_storage_path`, with the
dictionary's `.get(mime_type, "jpg")` default. -/
def ext_map (mime_type : String) : String :=
  if mime_type = "image/jpeg" then "jpg"
  else if mime_type = "image/png" then "png"
  else if mime_type = "image/gif" then "gif"
  else if mime_type = "image/webp" then "webp"
  else "jpg"

/-- `ImageStorageService._generate_storage_path`. -/
def generate_storage_path (source_id : String) (page_number : Option Nat)
    (image_index : Nat) (mime_type : String) : String :=
  let ext := ext_map mime_type
  let filename :=
    match page_number with
    | some n => "page_" ++ toString n ++ "_img_" ++ toString image_index ++ "." ++ ext
    | none => "img_" ++ toString image_index ++ "." ++ ext
  source_id ++ "/" ++ filename

/-- The storage key format as the claim states it:
`{document_id}/{page_or_"noPage"}_{index}.{ext}`. -/
def claimStoragePath (source_id : String) (page_number : Option Nat)
    (image_index : Nat) (mime_type : String) : String :=
  source_id ++ "/"
    ++ (match page_number with | some n => toString n | none => "noPage")
    ++ "_" ++ toString image_index ++ "." ++ ext_map mime_type

/-- One row of the `archon_document_images` metadata table (the fields
the storage claims are about; the row id is generated externally and
passed in). -/
structure ImageRow where
  id : String
  source_id : String
  page_number : Option Nat
  image_index : Nat
  storage_path : String
  mime_type : String
  deriving DecidableEq

/-- The externally visible state touched by `upload_image`: the keys
present in the `document-images` bucket and the metadata rows. -/
structure StorageState where
  blobs : List String
  rows : List ImageRow
  deriving DecidableEq

/-- `ImageStorageService.upload_image`.  The three external calls
(storage upload, database insert, signed-URL generation) are modelled
by success flags; a raising call is an `.error` outcome.  The function
returns the post-state together with the result: the `except` clauses
only log and re-raise, so no state written before a failure is undone. -/
def upload_image (uploadOk insertOk signOk : Bool) (new_id source_id : String)
    (page_number : Option Nat) (image_index : Nat) (mime_type : String)
    (st : StorageState) : StorageState × Except String ImageRow :=
  let storage_path := generate_storage_path source_id page_number image_index mime_type
  if ¬uploadOk then (st, .error "Storage upload returned no result")
  else
    let st1 : StorageState := { st with blobs := storage_path :: st.blobs }
    if ¬insertOk then (st1, .error "Database insert returned no data")
    else
      let row : ImageRow := ⟨new_id, source_id, page_number, image_index, storage_path, mime_type⟩
      let st2 : StorageState := { st1 with rows := row :: st1.rows }
      if ¬signOk then (st2, .error "Failed to generate signed URL")
      else (st2, .ok row)

/-! ## JSON values (the untyped dicts exchanged with the LLM backends) -/

/-- A JSON value.  Objects are association lists in field order. -/
inductive Json where
  | null
  | str (s : String)
  | num (n : Int)
  | bool (b : Bool)
  | arr (xs : List Json)
  | obj (fields : List (String × Json))

/-- Top-level keys of a JSON object (empty for non-objects). -/
def Json.topKeys : Json → List String
  | .obj fields => fields.map Prod.fst
  | _ => []

/-- Look up a top-level field of a JSON object. -/
def Json.getField (j : Json) (key : String) : Option Json :=
  match j with
  | .obj fields => (fields.find? (fun f => f.1 == key)).map Prod.snd
  | _ => none

/-! ## Vision enrichment
(`src/python/src/server/services/image_content_processor.py`) -/

/-- The JSON object demanded from the vision OCR/classification call
(the fields the pipeline reads). -/
structure Classification where
  ocr_text : String
  image_type : String
  deriving DecidableEq

/-- Embedding vector; the float components are abstracted to integers
(no verified property inspects them). -/
abbrev EmbeddingVec := List Int

/-- The enrichment-relevant part of an `archon_document_images` row. -/
structure EnrichRecord where
  id : String
  ocr_processed : Bool
  embedding_generated : Bool
  ocr_text : Option String
  image_type : Option String
  embedding : Option EmbeddingVec
  deriving DecidableEq

/-- Outcomes of the external calls `process_image_content` may make:
the vision OCR call, the optional structured-data call, the embedding
call, and the final database update.  A raising call is `.error`. -/
structure VisionEnv where
  ocr : Except String Classification
  structured : Except String Json
  embedding : Except String EmbeddingVec
  updateOk : Bool

/-- Status of one `process_image_content` run.  In the source a failure
is a raised exception; it is reified here as `.error` so the caller's
`try/except` can be modelled. -/
inductive ProcStatus where
  | success
  | already_processed
  | error (msg : String)
  deriving DecidableEq

/-- Result of one `process_image_content` run: its status, the image's
database record afterwards, and how many model calls were made. -/
structure ProcOutcome where
  status : ProcStatus
  record : Option EnrichRecord
  modelCalls : Nat
  deriving DecidableEq

/-- `ImageContentProcessor.process_image_content`: unless
`force_refresh` is set, a record already marked `ocr_processed` and
`embedding_generated` short-circuits to `already_processed` with no
calls and no state change; otherwise the pipeline runs OCR, optional
structured extraction (failures swallowed), embedding, and the record
update that sets both flags.  `fetchOk` models the storage download in
`_fetch_image_data`. -/
def process_image_content (env : VisionEnv) (fetchOk force_refresh : Bool)
    (record : Option EnrichRecord) : ProcOutcome :=
  if !force_refresh
      && (match record with
          | some r => r.ocr_processed && r.embedding_generated
          | none => false) then
    ⟨.already_processed, record, 0⟩
  else
    match record with
    | none => ⟨.error "Image not found", none, 0⟩
    | some r =>
      if ¬fetchOk then ⟨.error "Image not found", some r, 0⟩
      else
        match env.ocr with
        | .error e => ⟨.error e, some r, 1⟩
        | .ok cls =>
          let structuredCalls :=
            if cls.image_type = "chart" ∨ cls.image_type = "table"
                ∨ cls.image_type = "diagram" then 1 else 0
          match env.embedding with
          | .error e => ⟨.error e, some r, 1 + structuredCalls + 1⟩
          | .ok vec =>
            if ¬env.updateOk then
              ⟨.error "Update returned no data", some r, 1 + structuredCalls + 1⟩
            else
              ⟨.success,
               some { r with
                      ocr_processed := true, embedding_generated := true,
                      ocr_text := some cls.ocr_text,
                      image_type := some cls.image_type,
                      embedding := some vec },
               1 + structuredCalls + 1⟩

/-- Status of a single image as recorded by the per-source loop. -/
inductive SingleStatus where
  | success
  | already_processed
  deriving DecidableEq

/-- One entry of the `results` list built by
`process_all_images_for_source` (`already_processed` entries carry no
image id in the source). -/
structure ResultEntry where
  status : String
  image_id : Option String
  error : Option String
  deriving DecidableEq

/-- The entry the loop appends for one image, given the outcome of its
`process_image_content` call (`.error` models a raised exception caught
by the loop's `try/except`). -/
def resultEntryOf (imageId : String) (out : Except String SingleStatus) : ResultEntry :=
  match out with
  | .ok .success => ⟨"success", some imageId, none⟩
  | .ok .already_processed => ⟨"already_processed", none, none⟩
  | .error e => ⟨"error", some imageId, some e⟩

/-- The summary dict returned by `process_all_images_for_source`. -/
structure EnrichSummary where
  status : String
  source_id : String
  total_images : Nat
  processed : Nat
  already_processed : Nat
  errors : Nat
  results : List ResultEntry
  deriving DecidableEq

/-- `ImageContentProcessor.process_all_images_for_source`: iterate the
source's images, catching per-image exceptions as error entries, then
return the counting summary with status `complete` (`no_images` when
the source has none).  `f` gives each image's outcome. -/
def process_all_images_for_source (f : String → Except String SingleStatus)
    (source_id : String) (imageIds : List String) : EnrichSummary :=
  if imageIds = [] then
    ⟨"no_images", source_id, 0, 0, 0, 0, []⟩
  else
    let results := imageIds.map (fun id => resultEntryOf id (f id))
    ⟨"complete", source_id, imageIds.length,
     (results.filter (fun r => r.status == "success")).length,
     (results.filter (fun r => r.status == "already_processed")).length,
     (results.filter (fun r => r.status == "error")).length,
     results⟩

/-! ## Extraction templates (`src/services/mineru-mlx/template_loader.py`) -/

/-- A template variable.  `properties` models the Pydantic field of the
same name; Python's truthiness test `if var.properties:` treats both
`None` and `[]` as absent, so both collapse to the empty list. -/
inductive TemplateVariable where
  | mk (name description type : String) (required : Bool)
      (properties : List TemplateVariable)

def TemplateVariable.name : TemplateVariable → String
  | .mk n _ _ _ _ => n

def TemplateVariable.required : TemplateVariable → Bool
  | .mk _ _ _ r _ => r

/-- `TemplateParameters` (temperature omitted: floating point, never
inspected by a verified property). -/
structure TemplateParameters where
  max_text_length : Nat := 20000
  max_tokens : Nat := 2000
  timeout : Nat := 120
  deriving DecidableEq

/-- `OutputFormat`. -/
structure OutputFormat where
  null_handling : String := "Use null for missing data (not 'N/A' or empty string)"
  strict_schema : Bool := true
  include_confidence : Bool := false
  deriving DecidableEq

/-- `ExtractionTemplate`. -/
structure ExtractionTemplate where
  id : String
  name : String
  description : String
  category : String
  system_prompt : String
  user_prompt_template : String
  «variables» : List TemplateVariable
  parameters : TemplateParameters
  output_format : OutputFormat

/-- Names of a template's top-level variables. -/
def topLevelNames (t : ExtractionTemplate) : List String :=
  t.variables.map TemplateVariable.name

/-- Names of a template's top-level variables that are not required
(the nullable fields of the null-handling rule). -/
def nullableNames (t : ExtractionTemplate) : List String :=
  (t.variables.filter (fun v => !v.required)).map TemplateVariable.name

/-- Python's `x or d` for an optional integer argument (`None` and `0`
are falsy). -/
def pyOrOpt (v : Option Nat) (d : Nat) : Nat :=
  match v with
  | some n => if n = 0 then d else n
  | none => d

/-- `"  " * indent`. -/
def indentStr (n : Nat) : String :=
  String.join (List.replicate n "  ")

/-- `TemplateLoader._build_variables_list`, as the list of lines it
joins with newlines (each nested group contributes its own pre-joined
block line, as in the source). -/
def build_variables_list : Nat → List TemplateVariable → List String
  | _, [] => []
  | ind, .mk n d _ _ props :: rest =>
    if props.isEmpty then
      (indentStr ind ++ "- " ++ n ++ ": " ++ d) :: build_variables_list ind rest
    else
      (indentStr ind ++ "- " ++ n ++ ": " ++ d)
        :: String.intercalate "\n" (build_variables_list (ind + 1) props)
        :: build_variables_list ind rest
  termination_by _ l => sizeOf l

/-- `TemplateLoader._build_field_schema`. -/
def build_field_schema : Nat → TemplateVariable → String
  | ind, .mk n _ ty req props =>
    let indent_str := indentStr ind
    let required_marker := if req then " (required)" else " (optional)"
    if props.isEmpty then
      indent_str ++ "\"" ++ n ++ "\": <" ++ ty ++ required_marker ++ ">"
    else
      let nested_fields := props.attach.map (fun p => build_field_schema (ind + 1) p.1)
      let nested_schema := "\x7b\n" ++ String.intercalate ",\n" nested_fields
        ++ "\n" ++ indent_str ++ "  \x7d"
      indent_str ++ "\"" ++ n ++ "\": " ++ nested_schema ++ required_marker
  termination_by _ v => sizeOf v
  decreasing_by
    have := List.sizeOf_lt_of_mem p.2
    simp_wf
    omega

/-- `TemplateLoader._build_json_schema`. -/
def build_json_schema (t : ExtractionTemplate) : String :=
  let schema_fields := t.variables.map (build_field_schema 1)
  let schema := "\x7b\n" ++ String.intercalate ",\n" schema_fields ++ "\n\x7d"
  if t.output_format.null_handling ≠ "" then
    schema ++ "\n\n" ++ t.output_format.null_handling
  else schema

/-- The open/close brace characters, named to keep them out of string
literals. -/
def braceOpen : Char := Char.ofNat 123

def braceClose : Char := Char.ofNat 125

/-- Python `str.format` restricted to what the templates use: plain
named fields and doubled-brace escapes.  Unknown field names raise
`KeyError`, stray braces raise `ValueError` (modelled as `.error`).
The `fuel` argument only bounds recursion; every step consumes at least
one character, so starting it at the input length never exhausts it. -/
def pyFormatGo (subst : List (String × String)) : Nat → List Char → Except String (List Char)
  | _, [] => .ok []
  | 0, _ :: _ => .error "format: out of fuel"
  | fuel + 1, c :: rest =>
    if c = braceOpen then
      if rest.head? = some braceOpen then
        (fun t => braceOpen :: t) <$> pyFormatGo subst fuel rest.tail
      else
        let field := rest.takeWhile (· ≠ braceClose)
        match rest.dropWhile (· ≠ braceClose) with
        | [] => .error "ValueError: Single brace encountered in format string"
        | _ :: rest3 =>
          match subst.find? (fun kv => kv.1 == String.mk field) with
          | some kv => (fun t => kv.2.data ++ t) <$> pyFormatGo subst fuel rest3
          | none => .error ("KeyError: " ++ String.mk field)
    else if c = braceClose then
      if rest.head? = some braceClose then
        (fun t => braceClose :: t) <$> pyFormatGo subst fuel rest.tail
      else .error "ValueError: Single brace encountered in format string"
    else
      (fun t => c :: t) <$> pyFormatGo subst fuel rest

/-- `str.format` on strings. -/
def pyFormat (subst : List (String × String)) (s : String) : Except String String :=
  String.mk <$> pyFormatGo subst s.data.length s.data

/-- The `text_limit` line of `TemplateLoader.build_prompt`:
`max_text_length or template.parameters.max_text_length`. -/
def text_limit_of (max_text_length : Option Nat) (t : ExtractionTemplate) : Nat :=
  pyOrOpt max_text_length t.parameters.max_text_length

/-- `TemplateLoader.build_prompt`: truncate the text, render the
variables list and JSON schema, substitute the three placeholders, and
return `(system_prompt, user_prompt)`.  A `KeyError`/`ValueError` from
`format` propagates as `.error`. -/
def build_prompt (t : ExtractionTemplate) (text : String)
    (max_text_length : Option Nat) : Except String (String × String) :=
  let text_limit := text_limit_of max_text_length t
  let truncated_text := text.take text_limit
  let variables_list := String.intercalate "\n" (build_variables_list 0 t.variables)
  let json_schema := build_json_schema t
  (fun up => (t.system_prompt, up)) <$>
    pyFormat [("variables_list", variables_list), ("text", truncated_text),
              ("json_schema", json_schema)] t.user_prompt_template

/-- `TemplateLoader.get_template`: lookup by id. -/
def get_template (templates : List ExtractionTemplate) (template_id : String) :
    Option ExtractionTemplate :=
  templates.find? (fun t => t.id == template_id)

/-- `TemplateLoader.get_default_template`: `general_document`, else any
loaded template, else a raised `ValueError`. -/
def get_default_template (templates : List ExtractionTemplate) :
    Except String ExtractionTemplate :=
  match get_template templates "general_document" with
  | some t => .ok t
  | none =>
    match templates with
    | t :: _ => .ok t
    | [] => .error "No templates available!"

/-! ## Structured extraction (`src/services/mineru-mlx/app.py`) -/

/-- Which cloud credentials are present in the environment. -/
structure ProviderConfig where
  openai_api_key : Bool
  anthropic_api_key : Bool
  deriving DecidableEq

/-- `AVAILABLE_PROVIDERS`: ollama always, plus each cloud provider with
a configured key. -/
def AVAILABLE_PROVIDERS (cfg : ProviderConfig) : List String :=
  ["ollama"] ++ (if cfg.openai_api_key then ["openai"] else [])
    ++ (if cfg.anthropic_api_key then ["claude"] else [])

/-- The fields of `ExtractRequest` the handler reads (temperature
omitted: floating point, only forwarded to the backend). -/
structure ExtractRequest where
  text : String
  model : String
  provider : String
  template_id : Option String
  variables_template : List Json
  max_tokens : Option Nat
  max_text_length : Option Nat
  timeout : Option Nat

/-- The effective parameters dict computed by `get_template_and_params`
(temperature omitted as above). -/
structure EffectiveParams where
  max_tokens : Nat
  max_text_length : Nat
  timeout : Nat
  deriving DecidableEq

/-- `get_template_and_params`: resolve the template (deprecated inline
variables force the default; a falsy `template_id` falls back to the
default; an unknown id raises `ValueError`) and apply the `or`-style
overrides. -/
def get_template_and_params (templates : List ExtractionTemplate)
    (template_id : Option String) (variables_template : List Json)
    (max_tokens_override max_text_length_override timeout_override : Option Nat) :
    Except String (ExtractionTemplate × EffectiveParams) :=
  let tmpl : Except String ExtractionTemplate :=
    if ¬variables_template.isEmpty then get_default_template templates
    else
      match template_id with
      | some tid =>
        if tid = "" then get_default_template templates
        else
          match get_template templates tid with
          | some t => .ok t
          | none => .error ("Template not found: " ++ tid)
      | none => get_default_template templates
  tmpl.map (fun t =>
    (t, ⟨pyOrOpt max_tokens_override t.parameters.max_tokens,
         pyOrOpt max_text_length_override t.parameters.max_text_length,
         pyOrOpt timeout_override t.parameters.timeout⟩))

/-- The exceptions a provider call can raise into the handler's
`except` clauses. -/
inductive PyExc where
  | jsonDecodeError (msg : String)
  | timeoutExpired
  | exc (msg : String)

/-- The `ExtractResponse` envelope (processing_time omitted: wall
clock).  Every handler outcome is such an envelope with HTTP status
200; errors are carried in `error`, never raised. -/
structure ExtractResponse where
  success : Bool
  data : Option Json
  model : String
  provider : String
  error : Option String

/-- The `/extract-structured` handler `extract_structured`.  The
provider call's behaviour is the `llm` parameter; its exceptions and
all others raised in the `try` block are caught by the handler's
`except` clauses and returned as `success=false` envelopes, so the
function is total into `ExtractResponse`.  On success the parsed data
is returned as-is: no coercion to the template schema, no unknown-key
rejection, no `"N/A"`/empty-string conversion. -/
def extract_structured (cfg : ProviderConfig)
    (templates : List ExtractionTemplate) (req : ExtractRequest)
    (llm : Except PyExc Json) : ExtractResponse :=
  if ¬(req.provider ∈ AVAILABLE_PROVIDERS cfg) then
    ⟨false, none, req.model, req.provider,
     some ("Provider '" ++ req.provider ++ "' not available. Check ENV configuration.")⟩
  else
    match get_template_and_params templates req.template_id req.variables_template
        req.max_tokens req.max_text_length req.timeout with
    | .error e => ⟨false, none, req.model, req.provider, some e⟩
    | .ok (template, params) =>
      match build_prompt template req.text (some params.max_text_length) with
      | .error e => ⟨false, none, req.model, req.provider, some e⟩
      | .ok _prompts =>
        match llm with
        | .error (.jsonDecodeError m) =>
          ⟨false, none, req.model, req.provider,
           some ("Failed to parse LLM response: " ++ m)⟩
        | .error .timeoutExpired =>
          ⟨false, none, req.model, req.provider,
           some ("Request timed out after " ++ toString params.timeout ++ " seconds")⟩
        | .error (.exc m) => ⟨false, none, req.model, req.provider, some m⟩
        | .ok data => ⟨true, some data, req.model, req.provider, none⟩

/-! ### Concrete fixtures used to evaluate the extraction pipeline -/

/-- A strict-schema template with one nullable top-level variable and a
user prompt consisting of the `text` placeholder alone. -/
def cexTemplate : ExtractionTemplate :=
  { id := "t1", name := "T1", description := "test", category := "general",
    system_prompt := "sys",
    user_prompt_template := "\x7btext\x7d",
    «variables» := [.mk "title" "Document title" "string" false []],
    parameters := { max_text_length := 40 },
    output_format := {} }

/-- A parsed model response with an unknown top-level key and the
literal `"N/A"` in the nullable `title` field. -/
def cexData : Json :=
  .obj [("bogus", .str "x"), ("title", .str "N/A")]

/-- A request for the always-available local provider naming
`cexTemplate`. -/
def cexRequest : ExtractRequest :=
  { text := "doc text", model := "m", provider := "ollama",
    template_id := some "t1", variables_template := [],
    max_tokens := none, max_text_length := none, timeout := none }

/-- A template whose own `max_text_length` is 5, to exercise a larger
caller override. -/
def cex8Template : ExtractionTemplate :=
  { id := "t8", name := "T8", description := "test", category := "general",
    system_prompt := "sys8",
    user_prompt_template := "\x7btext\x7d",
    «variables» := [.mk "title" "Document title" "string" false []],
    parameters := { max_text_length := 5 },
    output_format := {} }

/-! ## Formula merging (`src/services/parser/main.py`) -/

/-- The Docling formula placeholder searched for by
`detect_formula_placeholders`. -/
def formulaPlaceholder : List Char := "<!-- formula-not-decoded -->".toList

/-- Position `p` marks the start of an occurrence of the placeholder in
`s` (what `detect_formula_placeholders` returns positions of). -/
def occursAt (s : List Char) (p : Nat) : Prop :=
  (s.drop p).take formulaPlaceholder.length = formulaPlaceholder

instance occursAt_decidable (s : List Char) (p : Nat) : Decidable (occursAt s p) :=
  inferInstanceAs (Decidable (_ = _))

/-- One iteration of the replacement loop in
`merge_formulas_into_markdown`: Python's `if latex:` replaces only a
present, non-empty LaTeX string. -/
def mergeStep (acc : List Char) (pl : Nat × Option (List Char)) : List Char :=
  match pl.2 with
  | some t =>
    if t.isEmpty then acc
    else acc.take pl.1 ++ ('$' :: (t ++ ['$'])) ++ acc.drop (pl.1 + formulaPlaceholder.length)
  | none => acc

/-- `merge_formulas_into_markdown`: return the markdown unchanged when
either list is empty, else replace from the end to the start over the
zip of the reversed lists. -/
def merge_formulas_into_markdown (markdown : List Char)
    (placeholder_positions : List Nat)
    (latex_formulas : List (Option (List Char))) : List Char :=
  if placeholder_positions.isEmpty || latex_formulas.isEmpty then markdown
  else (placeholder_positions.reverse.zip latex_formulas.reverse).foldl mergeStep markdown

/-- Left-to-right merge specification: walk the (position, LaTeX) pairs
in ascending order, copying the untouched characters between
occurrences and applying the replacement rule `repl` to each
occurrence (`repl` receives the original placeholder characters and
the optional LaTeX). -/
def mergeSpecGo (repl : List Char → Option (List Char) → List Char) (s : List Char) :
    Nat → List (Nat × Option (List Char)) → List Char
  | i, [] => s.drop i
  | i, (p, l) :: rest =>
    (s.drop i).take (p - i)
      ++ repl ((s.drop p).take formulaPlaceholder.length) l
      ++ mergeSpecGo repl s (p + formulaPlaceholder.length) rest

/-- Replacement rule as the claim states it: every present LaTeX string
is wrapped in single dollar signs. -/
def claimRepl (orig : List Char) : Option (List Char) → List Char
  | some t => '$' :: (t ++ ['$'])
  | none => orig

/-- Replacement rule as the code implements it: present and
non-empty. -/
def amendRepl (orig : List Char) : Option (List Char) → List Char
  | some t => if t.isEmpty then orig else '$' :: (t ++ ['$'])
  | none => orig

/-- The pairs are far enough apart for the replacements not to
interfere: each position is an occurrence, at or after the running
index, and the rest live past the occurrence's end. -/
def WellSep (s : List Char) : Nat → List (Nat × Option (List Char)) → Prop
  | _, [] => True
  | i, (p, _) :: rest =>
    i ≤ p ∧ occursAt s p ∧ WellSep s (p + formulaPlaceholder.length) rest

end Archon

namespace Archon

/-- C1: the PDF classifier agrees with the spec's ordered-threshold
algorithm: first `min(3, n)` pages are sampled, extractable characters
and embedded images summed, and the thresholds applied in order
(`>8000` → text; `>3000` → mixed iff images exceed twice the sampled
pages; `>500` → mixed iff images exceed the sampled pages; any images →
scanned; else unknown); a PDF that fails to parse is `unknown`. -/
theorem detect_pdf_type_matches_spec (pdf : Option (List PdfPage)) :
    detect_pdf_type pdf = (classifySpec pdf).toCode := by
  match pdf with
  | none => rfl
  | some pages =>
    by_cases h0 : pages.length = 0
    · have hnil : pages = [] := List.eq_nil_of_length_eq_zero h0
      subst hnil
      rfl
    · simp only [detect_pdf_type, classifySpec, h0]
      split_ifs <;> simp_all [InputClass.toCode] <;> omega

/-- Helper: within one page, the emitted indices continue the running
counter `ri` as `ri, ri+1, …`, and the returned counter is `ri` plus
the number of images emitted. -/
theorem extractRegionsOnPage_indices (ok : Nat → LayoutDet → Bool) (pi : Nat)
    (dets : List LayoutDet) (ri : Nat) :
    ((extractRegionsOnPage ok pi ri dets).1.map RegionImage.image_index
      = List.range' ri (extractRegionsOnPage ok pi ri dets).1.length)
    ∧ (extractRegionsOnPage ok pi ri dets).2
      = ri + (extractRegionsOnPage ok pi ri dets).1.length := by
  induction dets generalizing ri with
  | nil => simp [extractRegionsOnPage]
  | cons det rest ih =>
    simp only [extractRegionsOnPage]
    split_ifs with h1 h2 h3
    · exact ih ri
    · have h := ih (ri + 1)
      refine ⟨?_, ?_⟩
      · simp only [List.map_cons, List.length_cons, List.range'_succ, h.1]
      · simp only [List.length_cons, h.2]
        omega
    · exact ih ri
    · exact ih ri

/-- Helper: across pages, the counter keeps running, so the emitted
indices over the whole document are `ri, ri+1, …`. -/
theorem extractRegionsFrom_indices (ok : Nat → LayoutDet → Bool)
    (rs : List (List LayoutDet)) (pi ri : Nat) :
    (extractRegionsFrom ok pi ri rs).map RegionImage.image_index
      = List.range' ri (extractRegionsFrom ok pi ri rs).length := by
  induction rs generalizing pi ri with
  | nil => simp [extractRegionsFrom]
  | cons dets rest ih =>
    simp only [extractRegionsFrom, List.map_append, List.length_append]
    have hp := extractRegionsOnPage_indices ok pi dets ri
    rw [hp.1, ih (pi + 1) _, hp.2, List.range'_append_1, Nat.add_comm]

/-- C3 counterexample: a document with one image detection on each of
two pages.  The second page's first (and only) region image receives
index 1, not 0: indices do not restart per page, so the per-page
density property of the claim fails. -/
theorem region_indices_not_dense_per_page :
    densePerPage (extract_region_images (fun _ _ => true)
      [[⟨0, [0, 0, 1, 1]⟩], [⟨0, [0, 0, 1, 1]⟩]]) = false := by
  decide

/-- C3 (amended): region image indices form a dense 0-based sequence
across the whole document in emission order — the i-th emitted region
image has index i; the counter is not reset at page boundaries. -/
theorem region_indices_dense_document_wide (ok : Nat → LayoutDet → Bool)
    (rs : List (List LayoutDet)) :
    (extract_region_images ok rs).map RegionImage.image_index
      = List.range (extract_region_images ok rs).length := by
  rw [List.range_eq_range']
  exact extractRegionsFrom_indices ok rs 0 0

/-- Helper: a run of `process_image_content` that reports success has
stored a record with both completion flags set. -/
theorem success_marks_processed (env : VisionEnv) (fetchOk force : Bool)
    (record : Option EnrichRecord)
    (h : (process_image_content env fetchOk force record).status = .success) :
    ∃ r', (process_image_content env fetchOk force record).record = some r'
      ∧ r'.ocr_processed = true ∧ r'.embedding_generated = true := by
  obtain ⟨ocr, sd, emb, upd⟩ := env
  rcases record with _ | ⟨rid, rop, reg, rot, rit, rem⟩
  · rcases ocr with e | cls <;> cases force <;> simp_all [process_image_content]
  · rcases ocr with e | cls <;> rcases emb with e2 | vec <;> cases force <;>
      cases fetchOk <;> cases upd <;> cases rop <;> cases reg <;>
      simp_all [process_image_content]

/-- Helper: a record already marked processed short-circuits when
`force_refresh` is off: no model calls, no state change. -/
theorem short_circuit_when_processed (env : VisionEnv) (fetchOk : Bool)
    (r : EnrichRecord) (hop : r.ocr_processed = true)
    (heg : r.embedding_generated = true) :
    process_image_content env fetchOk false (some r)
      = ⟨.already_processed, some r, 0⟩ := by
  simp [process_image_content, hop, heg]

/-- Helper: with `force_refresh` set the short-circuit is skipped, so
the image is re-processed (the outcome is never `already_processed`). -/
theorem force_refresh_reprocesses (env : VisionEnv) (fetchOk : Bool)
    (record : Option EnrichRecord) :
    (process_image_content env fetchOk true record).status ≠ .already_processed := by
  obtain ⟨ocr, sd, emb, upd⟩ := env
  rcases record with _ | r <;> rcases ocr with e | cls <;> rcases emb with e2 | vec <;>
    cases fetchOk <;> cases upd <;> simp [process_image_content]

/-- C7: enrichment is idempotent.  After a successful run on an image,
a second run without `force_refresh` reports it as already processed,
makes no model calls, and leaves the record unchanged — whatever the
backends would have answered; with `force_refresh` the short-circuit is
skipped and the image is re-processed. -/
theorem enrichment_idempotent_unless_forced (env env2 : VisionEnv)
    (fetchOk fetchOk2 force : Bool) (record : Option EnrichRecord)
    (h : (process_image_content env fetchOk force record).status = .success) :
    ∃ r', (process_image_content env fetchOk force record).record = some r'
      ∧ process_image_content env2 fetchOk2 false (some r')
          = ⟨.already_processed, some r', 0⟩
      ∧ (process_image_content env2 fetchOk2 true (some r')).status
          ≠ .already_processed := by
  obtain ⟨r', hrec, hop, heg⟩ := success_marks_processed env fetchOk force record h
  exact ⟨r', hrec, short_circuit_when_processed env2 fetchOk2 r' hop heg,
         force_refresh_reprocesses env2 fetchOk2 (some r')⟩

/-- C7 witness: a concrete first run that succeeds, instantiating the
idempotence theorem. -/
theorem enrichment_idempotent_unless_forced_witness :
    (process_image_content ⟨.ok ⟨"txt", "photo"⟩, .ok .null, .ok [1], true⟩
        true false (some ⟨"img1", false, false, none, none, none⟩)).status
        = .success
    ∧ ∃ r', (process_image_content ⟨.ok ⟨"txt", "photo"⟩, .ok .null, .ok [1], true⟩
          true false (some ⟨"img1", false, false, none, none, none⟩)).record = some r'
      ∧ process_image_content ⟨.ok ⟨"t2", "chart"⟩, .ok .null, .ok [2], true⟩
          true false (some r') = ⟨.already_processed, some r', 0⟩
      ∧ (process_image_content ⟨.ok ⟨"t2", "chart"⟩, .ok .null, .ok [2], true⟩
          true true (some r')).status ≠ .already_processed :=
  ⟨rfl, enrichment_idempotent_unless_forced _ _ true true false _ rfl⟩

/-- C6: per-image enrichment failures are contained.  For a source with
at least one image the per-source loop returns a `complete` summary,
records one result entry per image, and records each failed image as an
error entry while the other images' outcomes are still recorded. -/
theorem process_all_images_isolates_failures
    (f : String → Except String SingleStatus) (source_id : String)
    (ids : List String) (h : ids ≠ []) :
    (process_all_images_for_source f source_id ids).status = "complete"
    ∧ (process_all_images_for_source f source_id ids).results
        = ids.map (fun id => resultEntryOf id (f id))
    ∧ ∀ id e, id ∈ ids → f id = .error e →
        (⟨"error", some id, some e⟩ : ResultEntry)
          ∈ (process_all_images_for_source f source_id ids).results := by
  simp only [process_all_images_for_source, if_neg h]
  refine ⟨trivial, trivial, ?_⟩
  intro id e hmem hf
  have hentry : resultEntryOf id (f id) = ⟨"error", some id, some e⟩ := by
    rw [hf]; rfl
  rw [← hentry]
  exact List.mem_map_of_mem _ hmem

/-- C6 witness: two images, the second failing, instantiating the
containment theorem. -/
theorem process_all_images_isolates_failures_witness :
    (["a", "b"] : List String) ≠ []
    ∧ ((process_all_images_for_source
          (fun id => if id = "b" then .error "boom" else .ok .success)
          "s" ["a", "b"]).status = "complete"
      ∧ (process_all_images_for_source
          (fun id => if id = "b" then .error "boom" else .ok .success)
          "s" ["a", "b"]).results
          = (["a", "b"] : List String).map (fun id => resultEntryOf id
              (if id = "b" then .error "boom" else .ok .success))
      ∧ ∀ id e, id ∈ (["a", "b"] : List String) →
          (if id = "b" then (.error "boom" : Except String SingleStatus)
           else .ok .success) = .error e →
          (⟨"error", some id, some e⟩ : ResultEntry)
            ∈ (process_all_images_for_source
                (fun id => if id = "b" then .error "boom" else .ok .success)
                "s" ["a", "b"]).results) :=
  ⟨by decide,
   process_all_images_isolates_failures
     (fun id => if id = "b" then .error "boom" else .ok .success)
     "s" ["a", "b"] (by decide)⟩

/-- C9 counterexample: for document "doc", page 2, index 0, PNG, the
code produces the key `doc/page_2_img_0.png`, not the claimed
`doc/2_0.png`. -/
theorem storage_path_format_differs_from_claim :
    generate_storage_path "doc" (some 2) 0 "image/png"
      ≠ claimStoragePath "doc" (some 2) 0 "image/png" := by
  decide

/-- C9 (amended): the blob storage key equals
`{source_id}/page_{page}_img_{index}.{ext}` when the page number is
known and `{source_id}/img_{index}.{ext}` otherwise, with the extension
derived from the MIME type (defaulting to `jpg`). -/
theorem storage_path_format (source_id : String) (page_number : Option Nat)
    (image_index : Nat) (mime_type : String) :
    generate_storage_path source_id page_number image_index mime_type
      = source_id ++ "/"
        ++ (match page_number with
            | some n => "page_" ++ toString n ++ "_img_"
            | none => "img_")
        ++ toString image_index ++ "." ++ ext_map mime_type := by
  cases page_number <;>
    simp only [generate_storage_path, String.append_assoc]

/-- C4 counterexample: uploading to an empty store with a failing
metadata insert surfaces the error but leaves the uploaded blob in the
bucket — the failed upload does leave an orphaned blob behind. -/
theorem upload_image_orphan_on_metadata_failure :
    (upload_image true false true "id1" "doc" (some 1) 0 "image/png" ⟨[], []⟩).2
        = .error "Database insert returned no data"
    ∧ (upload_image true false true "id1" "doc" (some 1) 0 "image/png" ⟨[], []⟩).1.blobs
        = ["doc/page_1_img_0.png"] := by
  constructor <;> rfl

/-- C4 (amended): the blob is written before the metadata row, and when
the metadata write fails the error is surfaced to the caller with the
blob left in place: the post-state contains the uploaded blob, no
metadata row is added, and no cleanup deletion is attempted. -/
theorem upload_image_metadata_failure_surfaces_error (signOk : Bool)
    (new_id source_id : String) (page_number : Option Nat) (image_index : Nat)
    (mime_type : String) (st : StorageState) :
    (upload_image true false signOk new_id source_id page_number
        image_index mime_type st).2
      = .error "Database insert returned no data"
    ∧ (upload_image true false signOk new_id source_id page_number
        image_index mime_type st).1.blobs
      = generate_storage_path source_id page_number image_index mime_type :: st.blobs
    ∧ (upload_image true false signOk new_id source_id page_number
        image_index mime_type st).1.rows = st.rows := by
  refine ⟨rfl, rfl, rfl⟩

/-- Helper: invert a successful `Except.map`. -/
theorem except_map_ok {α β ε : Type} (f : α → β) (e : Except ε α) (b : β)
    (h : e.map f = .ok b) : ∃ a, e = .ok a ∧ f a = b := by
  cases e with
  | error err => simp [Except.map] at h
  | ok a => exact ⟨a, rfl, by simpa [Except.map] using h⟩

/-- C5: a request naming a provider that is not configured gets the
normal 200 envelope with `success=false` and an error naming the
provider, whatever the registry or the backend would have done — the
handler never turns it into a raised HTTP error. -/
theorem provider_not_configured_envelope (cfg : ProviderConfig)
    (templates : List ExtractionTemplate) (req : ExtractRequest)
    (llm : Except PyExc Json)
    (h : ¬ req.provider ∈ AVAILABLE_PROVIDERS cfg) :
    extract_structured cfg templates req llm
      = ⟨false, none, req.model, req.provider,
         some ("Provider '" ++ req.provider ++ "' not available. Check ENV configuration.")⟩ := by
  simp [extract_structured, h]

/-- C5 witness: `claude` with no API keys configured. -/
theorem provider_not_configured_envelope_witness :
    (¬ "claude" ∈ AVAILABLE_PROVIDERS ⟨false, false⟩)
    ∧ extract_structured ⟨false, false⟩ []
        ⟨"t", "m", "claude", none, [], none, none, none⟩ (.ok .null)
      = ⟨false, none, "m", "claude",
         some ("Provider '" ++ "claude" ++ "' not available. Check ENV configuration.")⟩ :=
  ⟨by decide,
   provider_not_configured_envelope ⟨false, false⟩ []
     ⟨"t", "m", "claude", none, [], none, none, none⟩ (.ok .null) (by decide)⟩

set_option maxRecDepth 100000 in
/-- C2 counterexample: a successful extraction against a strict-schema
template returns the parsed model response verbatim: an unknown
top-level key survives and a nullable field keeps the literal `"N/A"`,
so the claimed coercion does not happen. -/
theorem strict_schema_not_enforced :
    cexTemplate.output_format.strict_schema = true
    ∧ (extract_structured ⟨false, false⟩ [cexTemplate] cexRequest (.ok cexData)).success
        = true
    ∧ (extract_structured ⟨false, false⟩ [cexTemplate] cexRequest (.ok cexData)).data
        = some cexData
    ∧ "bogus" ∈ cexData.topKeys
    ∧ ¬ "bogus" ∈ topLevelNames cexTemplate
    ∧ "title" ∈ nullableNames cexTemplate
    ∧ cexData.getField "title" = some (.str "N/A") :=
  ⟨rfl, rfl, rfl, by decide, by decide, by decide, rfl⟩

/-- C2 (amended): after a successful model response the handler returns
the parsed data object exactly as parsed — no coercion to the template
schema, no rejection of unknown top-level keys, and no `"N/A"`/empty
string conversion, regardless of the template's strict-schema flag. -/
theorem extraction_returns_model_data_unchanged (cfg : ProviderConfig)
    (templates : List ExtractionTemplate) (req : ExtractRequest) (data : Json)
    (t : ExtractionTemplate) (p : EffectiveParams) (pr : String × String)
    (h1 : req.provider ∈ AVAILABLE_PROVIDERS cfg)
    (h2 : get_template_and_params templates req.template_id req.variables_template
        req.max_tokens req.max_text_length req.timeout = .ok (t, p))
    (h3 : build_prompt t req.text (some p.max_text_length) = .ok pr) :
    extract_structured cfg templates req (.ok data)
      = ⟨true, some data, req.model, req.provider, none⟩ := by
  simp [extract_structured, h1, h2, h3]

set_option maxRecDepth 100000 in
/-- C2 witness: a concrete successful call against `cexTemplate`. -/
theorem extraction_returns_model_data_unchanged_witness :
    ("ollama" ∈ AVAILABLE_PROVIDERS ⟨false, false⟩)
    ∧ (get_template_and_params [cexTemplate] cexRequest.template_id
        cexRequest.variables_template cexRequest.max_tokens
        cexRequest.max_text_length cexRequest.timeout
        = .ok (cexTemplate, ⟨2000, 40, 120⟩))
    ∧ (build_prompt cexTemplate cexRequest.text (some (40 : Nat)) = .ok ("sys", "doc text"))
    ∧ extract_structured ⟨false, false⟩ [cexTemplate] cexRequest (.ok cexData)
        = ⟨true, some cexData, cexRequest.model, cexRequest.provider, none⟩ :=
  ⟨by decide, rfl, rfl,
   extraction_returns_model_data_unchanged ⟨false, false⟩ [cexTemplate] cexRequest
     cexData cexTemplate ⟨2000, 40, 120⟩ ("sys", "doc text") (by decide) rfl rfl⟩

set_option maxRecDepth 100000 in
/-- C8 counterexample: with a template cap of 5 and a caller override
of 10, the text `abcdefgh` is kept whole (truncated to 10, the
override), whereas the claimed `min(override, template cap)` truncation
would keep only `abcde`. -/
theorem text_truncation_exceeds_template_cap :
    (get_template_and_params [cex8Template] (some "t8") [] none (some 10) none).map
        (fun tp => tp.2.max_text_length) = .ok 10
    ∧ build_prompt cex8Template "abcdefgh" (some 10) = .ok ("sys8", "abcdefgh")
    ∧ ("abcdefgh" : String).take (min 10 cex8Template.parameters.max_text_length)
        = "abcde"
    ∧ ("abcdefgh" : String) ≠ "abcde" :=
  ⟨rfl, rfl, by decide, by decide⟩

/-- C8 (amended): the effective truncation limit is the caller override
whenever it is supplied and nonzero (Python `or`), otherwise the
template's own `max_text_length`; no minimum with the template limit is
taken, so a nonzero override always wins even above the template's cap,
and `build_prompt` truncates to exactly the effective limit it is
handed. -/
theorem effective_text_limit_is_override (templates : List ExtractionTemplate)
    (template_id : Option String) (vt : List Json) (mt mtl timeo : Option Nat)
    (t : ExtractionTemplate) (p : EffectiveParams)
    (h : get_template_and_params templates template_id vt mt mtl timeo = .ok (t, p)) :
    p.max_text_length = pyOrOpt mtl t.parameters.max_text_length
    ∧ text_limit_of (some p.max_text_length) t = p.max_text_length
    ∧ ∀ v, mtl = some v → v ≠ 0 → p.max_text_length = v := by
  simp only [get_template_and_params] at h
  obtain ⟨t0, hres, hf⟩ := except_map_ok _ _ _ h
  obtain ⟨ht, hp⟩ := Prod.mk.injEq .. ▸ hf
  subst ht
  subst hp
  refine ⟨rfl, ?_, ?_⟩
  · rcases mtl with _ | v
    · simp [text_limit_of, pyOrOpt]
    · by_cases hv : v = 0 <;> simp [text_limit_of, pyOrOpt, hv]
  · intro v hv hvne
    subst hv
    simp [pyOrOpt, hvne]

/-- C8 witness: override 10 against the 5-capped template. -/
theorem effective_text_limit_is_override_witness :
    (get_template_and_params [cex8Template] (some "t8") [] none (some 10) none
        = .ok (cex8Template, ⟨2000, 10, 120⟩))
    ∧ ((⟨2000, 10, 120⟩ : EffectiveParams).max_text_length
          = pyOrOpt (some 10) cex8Template.parameters.max_text_length
      ∧ text_limit_of (some (⟨2000, 10, 120⟩ : EffectiveParams).max_text_length)
          cex8Template = (⟨2000, 10, 120⟩ : EffectiveParams).max_text_length
      ∧ ∀ v, (some 10 : Option Nat) = some v → v ≠ 0 →
          (⟨2000, 10, 120⟩ : EffectiveParams).max_text_length = v) :=
  ⟨rfl,
   effective_text_limit_is_override [cex8Template] (some "t8") [] none (some 10)
     none cex8Template ⟨2000, 10, 120⟩ rfl⟩

/-- Helper: the placeholder is 28 characters long. -/
theorem formulaPlaceholder_length : formulaPlaceholder.length = 28 := rfl

/-- Helper: an occurrence fits inside the string. -/
theorem occursAt_le_length {s : List Char} {p : Nat} (h : occursAt s p) :
    p + 28 ≤ s.length := by
  have hl := congrArg List.length h
  simp [formulaPlaceholder_length] at hl
  omega

/-- Helper: the characters of an occurrence are the placeholder's. -/
theorem occursAt_getElem {s : List Char} {p : Nat} (h : occursAt s p)
    {j : Nat} (hj : j < 28) : s[p + j]? = formulaPlaceholder[j]? := by
  have h' := congrArg (fun l => l[j]?) h
  simp only at h'
  rw [List.getElem?_take_of_lt (by rw [formulaPlaceholder_length]; exact hj),
    List.getElem?_drop] at h'
  exact h'

/-- Helper: the placeholder cannot overlap itself, so two occurrences
at distinct positions are at least 28 apart. -/
theorem occursAt_sep {s : List Char} {p q : Nat} (hp : occursAt s p)
    (hq : occursAt s q) (hlt : p < q) : p + 28 ≤ q := by
  by_contra hcon
  push_neg at hcon
  have hd : q - p < 28 := by omega
  have h1 : s[q]? = formulaPlaceholder[q - p]? := by
    have := occursAt_getElem hp hd
    rw [← this]
    congr 1
    omega
  have h2 : s[q]? = formulaPlaceholder[0]? := by
    have := occursAt_getElem hq (j := 0) (by omega)
    simpa using this
  have h3 : formulaPlaceholder[q - p]? = formulaPlaceholder[0]? := by
    rw [← h1, h2]
  have h4 : ∀ d < 28, 1 ≤ d → formulaPlaceholder[d]? ≠ formulaPlaceholder[0]? := by
    decide
  exact h4 (q - p) hd (by omega) h3

/-- Helper: strictly ascending occurrence positions are well
separated. -/
theorem wellSep_of_chain (s : List Char) :
    ∀ (ps : List Nat) (ls : List (Option (List Char))) (i : Nat),
      List.Chain' (· < ·) ps → (∀ p ∈ ps, occursAt s p) →
      (∀ q, ps.head? = some q → i ≤ q) →
      WellSep s i (ps.zip ls) := by
  intro ps
  induction ps with
  | nil => intro ls i _ _ _; simp [WellSep]
  | cons p ps' ih =>
    intro ls i hch hocc hhead
    cases ls with
    | nil => simp [WellSep]
    | cons l ls' =>
      refine ⟨hhead p rfl, hocc p (by simp), ?_⟩
      refine ih ls' (p + formulaPlaceholder.length) hch.tail
        (fun q hq => hocc q (List.mem_cons_of_mem _ hq)) ?_
      intro q hq
      have hmem : q ∈ ps' := List.mem_of_mem_head? (by simp [hq])
      have hlt : p < q := List.Chain'.rel_head? hch (by simp [hq])
      have := occursAt_sep (hocc p (by simp))
        (hocc q (List.mem_cons_of_mem _ hmem)) hlt
      rw [formulaPlaceholder_length]
      exact this

/-- Helper: the right-to-left replacement fold computes the
left-to-right merge specification on well-separated pairs. -/
theorem fold_go (s : List Char) :
    ∀ (pairs : List (Nat × Option (List Char))) (i : Nat),
      WellSep s i pairs →
      pairs.foldr (fun pl acc => mergeStep acc pl) s
        = s.take i ++ mergeSpecGo amendRepl s i pairs := by
  intro pairs
  induction pairs with
  | nil =>
    intro i _
    simp [mergeSpecGo]
  | cons pl rest ih =>
    obtain ⟨p, l⟩ := pl
    intro i hws
    obtain ⟨hip, hocc, hrest⟩ := hws
    have hplen : p + 28 ≤ s.length := occursAt_le_length hocc
    have hA := ih (p + 28) (by
      simpa [formulaPlaceholder_length] using hrest)
    simp only [List.foldr_cons]
    rw [hA]
    have hlenA : (s.take (p + 28)).length = p + 28 := List.length_take_of_le hplen
    have htakep : s.take p = s.take i ++ (s.drop i).take (p - i) := by
      have hpi : i + (p - i) = p := by omega
      rw [← hpi, List.take_add, hpi]
    have hsplit : s.take (p + 28)
        = s.take i ++ (s.drop i).take (p - i) ++ (s.drop p).take 28 := by
      rw [List.take_add, htakep]
    show mergeStep (s.take (p + 28) ++ mergeSpecGo amendRepl s (p + 28) rest) (p, l)
        = s.take i ++ mergeSpecGo amendRepl s i ((p, l) :: rest)
    match l with
    | none =>
      simp only [mergeStep, mergeSpecGo, amendRepl, formulaPlaceholder_length]
      rw [hsplit]
      simp [List.append_assoc]
    | some t =>
      by_cases ht : t.isEmpty
      · simp only [mergeStep, mergeSpecGo, amendRepl, formulaPlaceholder_length, ht,
          if_pos]
        rw [hsplit]
        simp [List.append_assoc]
      · simp only [mergeStep, mergeSpecGo, amendRepl, formulaPlaceholder_length, ht,
          if_neg, Bool.false_eq_true, not_false_eq_true]
        rw [List.take_append_of_le_length (by omega), List.take_take,
          Nat.min_eq_left (by omega), List.drop_left' hlenA, htakep]
        simp [List.append_assoc]

/-- Helper: reversing both lists then zipping is the reverse of the
zip, for equal-length lists. -/
theorem zip_reverse_eq {α β : Type} :
    ∀ (xs : List α) (ys : List β), xs.length = ys.length →
      xs.reverse.zip ys.reverse = (xs.zip ys).reverse := by
  intro xs
  induction xs with
  | nil => intro ys h; cases ys <;> simp_all
  | cons x xs' ih =>
    intro ys h
    cases ys with
    | nil => simp at h
    | cons y ys' =>
      simp only [List.reverse_cons]
      rw [List.zip_append (by simp_all), ih ys' (by simpa using h)]
      simp

/-- Helper: the code's guarded reverse-zip fold is the plain right fold
over the pairs, for equal-length lists. -/
theorem merge_code_as_foldr (s : List Char) (ps : List Nat)
    (ls : List (Option (List Char))) (hlen : ps.length = ls.length) :
    merge_formulas_into_markdown s ps ls
      = (ps.zip ls).foldr (fun pl acc => mergeStep acc pl) s := by
  unfold merge_formulas_into_markdown
  cases ps with
  | nil => cases ls <;> simp_all
  | cons p ps' =>
    cases ls with
    | nil => simp at hlen
    | cons l ls' =>
      simp only [List.isEmpty_cons, Bool.or_self, Bool.false_eq_true, if_neg,
        not_false_eq_true]
      rw [zip_reverse_eq _ _ hlen, List.foldl_reverse]

/-- C10 counterexample: positions and LaTeX lists satisfying all the
claim's hypotheses on which the code differs from the claimed
replacement: a present-but-empty LaTeX string (`Some ""`) is not
replaced (Python's `if latex:` is false for the empty string), whereas
the claim would wrap it as `$$`. -/
theorem merge_empty_latex_not_replaced :
    occursAt formulaPlaceholder 0
    ∧ List.Chain' (· < ·) [0]
    ∧ ([0] : List Nat).length = ([some []] : List (Option (List Char))).length
    ∧ merge_formulas_into_markdown formulaPlaceholder [0] [some ([] : List Char)]
        = formulaPlaceholder
    ∧ mergeSpecGo claimRepl formulaPlaceholder 0
        (([0] : List Nat).zip [some ([] : List Char)]) = ['$', '$']
    ∧ formulaPlaceholder ≠ ['$', '$'] :=
  ⟨by decide, List.chain'_singleton 0, by decide, by decide, by decide, by decide⟩

/-- C10 (amended): for equal-length lists of strictly ascending
occurrence positions and optional LaTeX strings, the merge replaces the
occurrence at the i-th position with the i-th LaTeX wrapped in single
dollar signs exactly for those i whose LaTeX is present and non-empty,
leaves every other character unchanged (including occurrences with
absent or empty LaTeX), and returns the markdown unchanged when either
list is empty. -/
theorem merge_formulas_matches_amended_spec (s : List Char) (ps : List Nat)
    (ls : List (Option (List Char))) (hlen : ps.length = ls.length)
    (hchain : List.Chain' (· < ·) ps) (hocc : ∀ p ∈ ps, occursAt s p) :
    merge_formulas_into_markdown s ps ls = mergeSpecGo amendRepl s 0 (ps.zip ls) := by
  rw [merge_code_as_foldr s ps ls hlen]
  have hws : WellSep s 0 (ps.zip ls) :=
    wellSep_of_chain s ps ls 0 hchain hocc (fun q _ => Nat.zero_le q)
  simpa using fold_go s (ps.zip ls) 0 hws

/-- C10 witness: two occurrences, the first replaced by `$x$`, the
second left as the placeholder (absent LaTeX). -/
theorem merge_formulas_matches_amended_spec_witness :
    (([0, 30] : List Nat).length
        = ([some ['x'], none] : List (Option (List Char))).length
      ∧ List.Chain' (· < ·) [0, 30]
      ∧ ∀ p ∈ ([0, 30] : List Nat),
          occursAt (formulaPlaceholder ++ ['a', 'b'] ++ formulaPlaceholder) p)
    ∧ merge_formulas_into_markdown
        (formulaPlaceholder ++ ['a', 'b'] ++ formulaPlaceholder)
        [0, 30] [some ['x'], none]
      = mergeSpecGo amendRepl
          (formulaPlaceholder ++ ['a', 'b'] ++ formulaPlaceholder) 0
          (([0, 30] : List Nat).zip [some ['x'], none]) :=
  ⟨⟨by decide, by simp [List.chain'_cons], by decide⟩,
   merge_formulas_matches_amended_spec
     (formulaPlaceholder ++ ['a', 'b'] ++ formulaPlaceholder)
     [0, 30] [some ['x'], none] (by decide) (by simp [List.chain'_cons]) (by decide)⟩

end Archon
